import Mathlib

/-!
Shallow embedding of the loan lifecycle and penalty accrual engine of the
solana-stablecoin-contracts program (sources under `src/`), together with
theorems settling the frozen claims about it.

Modelling conventions:
* `u64`/`u32` values are modelled as `Nat`, `i64` unix timestamps as `Int`.
  Bounds (`< 2^64`, `< 2^96`) are made explicit exactly where the source's
  checked conversions and `rust_decimal` overflow checks inspect them.
* `rust_decimal::Decimal` values are modelled as exact rationals `ℚ`.
  A `Decimal` carries a 96-bit mantissa, so its checked operations fail when
  the magnitude of a result reaches `2^96`; those checks are modelled
  explicitly.  The 28-fractional-digit rounding that `rust_decimal` performs
  inside a division is not modelled; every concrete value evaluated below is
  far from a rounding boundary and agrees with the repository's unit tests.
* Rust `Result`/`?` becomes `Except`; a Rust `panic` (an `unwrap` of `None`)
  is modelled by the distinguished error `LucraErr.panic`, kept separate
  from the program's own `LucraErrorCode` errors.
* Solana account plumbing (ownership checks, signers, rent, CPI calls) is
  outside the model; the definitions operate on the deserialized record
  state exactly as the processor bodies do.  On-chain, an `Except.error`
  aborts the transaction and discards every write, so an error result means
  "no state change".
* The repository's `state` module is not among the provided sources.  Each
  definition that stands in for a missing `state` method carries a doc
  comment starting `Modelled from the spec:`.
-/

/-- Error codes from `src/error.rs` (`LucraErrorCode`), restricted to the
variants reachable in the modelled operations. -/
inductive LucraErrorCode where
  | InvalidAmount
  | InvalidAccountInput
  | Timelock
  | MathError
  | OracleStale
  | OracleStatusNotValid
  | InsufficientTimePassed
  | NotRentExempt
  | DefaultError
  deriving DecidableEq

/-- Outcome of a fallible step: either a program error code (propagated with
`?` in the source) or a Rust panic (an `unwrap()` of a failed operation). -/
inductive LucraErr where
  | code (c : LucraErrorCode)
  | panic
  deriving DecidableEq

instance {ε α : Type} [DecidableEq ε] [DecidableEq α] : DecidableEq (Except ε α) :=
  fun a b =>
    match a, b with
    | .ok x, .ok y =>
        if h : x = y then isTrue (congrArg Except.ok h)
        else isFalse (fun hc => h (Except.ok.inj hc))
    | .error x, .error y =>
        if h : x = y then isTrue (congrArg Except.error h)
        else isFalse (fun hc => h (Except.error.inj hc))
    | .ok _, .error _ => isFalse (fun hc => Except.noConfusion hc)
    | .error _, .ok _ => isFalse (fun hc => Except.noConfusion hc)

/-- Largest magnitude representable by `rust_decimal::Decimal`
(96-bit mantissa at scale 0). -/
def decimalCap : ℚ := 2 ^ 96

/-- `Decimal::checked_mul`: fails when the product cannot be represented. -/
def decMul (a b : ℚ) : Option ℚ :=
  if -decimalCap < a * b ∧ a * b < decimalCap then some (a * b) else none

/-- `Decimal::checked_add`: fails when the sum cannot be represented. -/
def decAdd (a b : ℚ) : Option ℚ :=
  if -decimalCap < a + b ∧ a + b < decimalCap then some (a + b) else none

/-- `Decimal::checked_div`: fails on a zero divisor or an unrepresentable
quotient. -/
def decDiv (a b : ℚ) : Option ℚ :=
  if b = 0 then none
  else if -decimalCap < a / b ∧ a / b < decimalCap then some (a / b) else none

/-- `Decimal::floor().to_u64()`: the floor as a `u64`, failing when the
floor is negative or does not fit in 64 bits. -/
def floor_to_u64 (a : ℚ) : Option ℕ :=
  if 0 ≤ ⌊a⌋ ∧ ⌊a⌋ < 2 ^ 64 then some ⌊a⌋.toNat else none

/-- `Option::ok_or(math_err!())?` as used throughout the source. -/
def ok_or_math_err {α : Type} : Option α → Except LucraErr α
  | some v => .ok v
  | none => .error (.code .MathError)

/-- `Result::unwrap()`: any failure of the inner computation becomes a
panic. -/
def unwrap_or_panic {α : Type} : Except LucraErr α → Except LucraErr α
  | .ok v => .ok v
  | .error _ => .error .panic

/-! ## Oracle price derivation (`src/helpers/oracle.rs`) -/

/-- `ORACLE_PRICE_MAX_SLOTS` from `src/helpers/constants.rs`. -/
def ORACLE_PRICE_MAX_SLOTS : ℕ := 25

/-- `get_price` (`oracle.rs:111`): `Decimal::from(price) / Decimal::TEN.powi(expo)`,
then `unwrap()`.  `Decimal::TEN.powi(expo)` overflows the 96-bit mantissa, and
panics, as soon as `expo ≥ 29`; for `expo ≤ 28` both the power and the
division are exact and the `unwrap` cannot fire. -/
def get_price (price : ℕ) (expo : ℕ) : Except LucraErr ℚ :=
  if expo ≤ 28 then .ok ((price : ℚ) / 10 ^ expo) else .error .panic

/-- `calc_oracle_price` (`oracle.rs:99`): status gate, staleness gate, then
`get_price`. -/
def calc_oracle_price (price expo valid_slot status current_slot : ℕ) :
    Except LucraErr ℚ :=
  if status ≠ 1 then .error (.code .OracleStatusNotValid)
  else if valid_slot + ORACLE_PRICE_MAX_SLOTS < current_slot then
    .error (.code .OracleStale)
  else get_price price expo

/-- A raw oracle feed record as read by `get_oracle_price` (`oracle.rs:89`). -/
structure OracleFeed where
  price : ℕ
  expo : ℕ
  valid_slot : ℕ
  status : ℕ
  deriving DecidableEq

/-- `get_oracle_price` (`oracle.rs:89`), with the byte-offset reads replaced
by the feed record's fields. -/
def get_oracle_price (f : OracleFeed) (current_slot : ℕ) : Except LucraErr ℚ :=
  calc_oracle_price f.price f.expo f.valid_slot f.status current_slot

/-- `get_sol_price` (`oracle.rs:52`): the more conservative of the two USD
quotes. -/
def get_sol_price (sol_usdc sol_usdt : OracleFeed) (current_slot : ℕ) :
    Except LucraErr ℚ := do
  let sol_usdc_price ← get_oracle_price sol_usdc current_slot
  let sol_usdt_price ← get_oracle_price sol_usdt current_slot
  .ok (if sol_usdc_price > sol_usdt_price then sol_usdt_price else sol_usdc_price)

/-- `get_mata_price` (`oracle.rs:75`): invert the SOL/MATA feed and multiply
by the SOL/USD price, each step `checked_…().ok_or(math_err!())?`. -/
def get_mata_price (sol_mata sol_usdc sol_usdt : OracleFeed)
    (current_slot : ℕ) : Except LucraErr ℚ := do
  let sol_mata_price ← get_oracle_price sol_mata current_slot
  let sol_usd_price ← get_sol_price sol_usdc sol_usdt current_slot
  let sol_mata ← ok_or_math_err (decDiv 1 sol_mata_price)
  let mata_usd_price ← ok_or_math_err (decMul sol_mata sol_usd_price)
  .ok mata_usd_price

/-! ## Interest-rate arithmetic (`src/helpers/math.rs`) -/

/-- `calculate_annual_interest_rate` (`math.rs:13`): simple interest
`A = P·r·t` with the `u32` rate read as `Decimal::new(rate, 2) = rate/100`,
then `.floor().to_u64().unwrap()`.  Every step is an `unwrap`, so a failed
conversion is a panic, not a surfaced `MathError`.  For a `u32` rate and a
`u64` amount at the times used by the program (fractions of a year) the
intermediate `checked_mul`s stay far below the 96-bit mantissa bound, so the
only unwrap that can fire is the final `to_u64`. -/
def calculate_annual_interest_rate (rate : ℕ) (starting_amount : ℕ)
    (time : ℚ) : Except LucraErr ℕ :=
  match floor_to_u64 (time * ((rate : ℚ) / 100) * (starting_amount : ℚ)) with
  | some a => .ok a
  | none => .error .panic

/-! ## The loan record and penalty determination
(`src/processor/process_determine_penalty.rs`) -/

/-- `LoanType` from the `state` module (variants as used by the
processors). -/
inductive LoanType where
  | Default
  | LucraBacked
  deriving DecidableEq

/-- The `MataLoan` record, fields as written by `_create_loan`
(`process_create_mata_loan.rs:448`). -/
structure MataLoan where
  repaid : Bool
  loan_type : LoanType
  collateral_rate : ℕ
  sol_collateral_amount : ℕ
  staking_collateral_amount : ℕ
  market_price : ℕ
  loan_amount : ℕ
  penalty_harvested : ℕ
  penalty_to_harvest : ℕ
  loan_creation_date : ℤ
  last_day_penalty_was_checked : ℤ
  deriving DecidableEq

/-- One `HistoricPrice` ring entry (`state` module; field set as used by
`process_determine_penalty.rs` and its tests). -/
structure HistoricPrice where
  date : ℤ
  sol_price : ℕ
  sol_decimals : ℕ
  lucra_price : ℕ
  lucra_decimals : ℕ
  deriving DecidableEq

/-- The `PriceHistory` record.  The fixed ring of 30 entries is modelled as
a list, iterated in storage order exactly as `price_history.prices.iter()`
does. -/
structure PriceHistory where
  prices : List HistoricPrice
  interval_start : ℤ
  update_counter : ℕ
  last_update_timestamp : ℤ
  deriving DecidableEq

/-- `UNIX_DAY` from `src/helpers/constants.rs`. -/
def UNIX_DAY : ℤ := 86400

/-- `UNIX_HOUR` from `src/helpers/constants.rs`. -/
def UNIX_HOUR : ℤ := 3600

/-- Truncation of a unix timestamp to the start of its UTC day:
`OffsetDateTime::from_unix_timestamp(ts).replace_time(Time::from_hms(0,0,0))`
as used in `_accumulate_penalty_rate_charge` (lines 143-151). -/
def day_start (ts : ℤ) : ℤ := UNIX_DAY * (ts.ediv UNIX_DAY)

/-- `LAMPORTS_PER_SOL` (`solana_program::native_token`). -/
def LAMPORTS_PER_SOL : ℕ := 1000000000

/-- `LAMPORTS_PER_LUCRA` from `src/helpers/constants.rs` (a `Decimal`). -/
def LAMPORTS_PER_LUCRA : ℚ := 1000000000

/-- `LAMPORTS_PER_MATA` from `src/helpers/constants.rs` (a `Decimal`). -/
def LAMPORTS_PER_MATA : ℚ := 1000000

/-- `calculate_penalty_multiplier` (`process_determine_penalty.rs:107`). -/
def calculate_penalty_multiplier (mata_price : ℚ) : Except LucraErr ℕ :=
  if 1 ≤ mata_price then .ok 1
  else
    let five_cents : ℚ := 5 / 100
    match decDiv mata_price five_cents with
    | none => .error (.code .MathError)
    | some q =>
        match floor_to_u64 q with
        | none => .error (.code .MathError)
        | some remainder => .ok ((20 - remainder) * 2)

/-- `calculate_collateral_value` (`process_determine_penalty.rs:198`). -/
def calculate_collateral_value (sol_price : ℕ) (sol_decimals : ℕ)
    (sol_collateral_amount : ℕ) (lucra_price : ℕ) (lucra_decimals : ℕ)
    (staking_collateral_amount : ℕ) : Except LucraErr ℚ := do
  let sol_market_price ← get_price sol_price sol_decimals
  let lucra_market_price ← get_price lucra_price lucra_decimals
  let p1 ← ok_or_math_err (decMul (sol_collateral_amount : ℚ) sol_market_price)
  let sol_side ← ok_or_math_err (decDiv p1 (LAMPORTS_PER_SOL : ℚ))
  let p2 ← ok_or_math_err (decMul (staking_collateral_amount : ℚ) lucra_market_price)
  let lucra_side ← ok_or_math_err (decDiv p2 LAMPORTS_PER_LUCRA)
  ok_or_math_err (decAdd sol_side lucra_side)

/-- The type of `MataLoan::calc_penalty_rate_percentage` (a `state` method
that is not among the provided sources): from the loan record and a day's
collateral value, the annualized penalty-rate percentage (`u32`). -/
def RateFn : Type := MataLoan → ℚ → Except LucraErr ℕ

/-- Modelled from the spec: `MataLoan::calc_penalty_rate_percentage` is not
among the provided sources; the spec fixes only that it derives "an
annualized penalty rate percentage from `collateral_value` relative to the
loan's outstanding debt (a risk-banded schedule internal to the loan
record)".  This concrete instance returns the bottom band observed
throughout the repository's unit tests for deeply undercollateralized days
(`3600`, i.e. `36.00` when scaled by `Decimal::new(rate, 2)`), and is used
only to evaluate the algorithm at concrete inputs; theorems about the
algorithm's structure quantify over every `RateFn`. -/
def flat_rate_schedule : RateFn := fun _ _ => .ok 3600

/-- `one_day` as computed at `process_determine_penalty.rs:156`:
`dec!(1).checked_div(356.into()).unwrap()`.  Note the source divides the
year into 356 days, not 365. -/
def one_day : ℚ := 1 / 356

/-- The loop body of `_accumulate_penalty_rate_charge`
(`process_determine_penalty.rs:158-183`): the charge one history entry
contributes to the running total.  Each `continue` contributes zero; an
eligible day values the collateral (`.unwrap()`, so failures panic), asks
the loan for its annual penalty rate, converts it to a one-day charge and
scales by the penalty multiplier. -/
def day_charge (calc_penalty_rate_percentage : RateFn) (loan : MataLoan)
    (penalty_multiplier : ℕ) (today date_last_harvested : ℤ)
    (history : HistoricPrice) : Except LucraErr ℕ :=
  if history.sol_price = 0 ∨ history.lucra_price = 0 then .ok 0
  else if history.date < loan.loan_creation_date then .ok 0
  else if history.date = today then .ok 0
  else if history.date > date_last_harvested then do
    let collateral_value ← unwrap_or_panic
      (calculate_collateral_value history.sol_price history.sol_decimals
        loan.sol_collateral_amount history.lucra_price history.lucra_decimals
        loan.staking_collateral_amount)
    let annual_penalty_rate ← calc_penalty_rate_percentage loan collateral_value
    let c ← calculate_annual_interest_rate annual_penalty_rate
      loan.sol_collateral_amount one_day
    .ok (c * penalty_multiplier)
  else .ok 0

/-- The `for history in price_history.prices.iter()` loop of
`_accumulate_penalty_rate_charge` (lines 158-183): fold the per-day charges
into the running `penalty_rate` accumulator, stopping at the first failing
day. -/
def sum_day_charges (calc_penalty_rate_percentage : RateFn)
    (loan : MataLoan) (penalty_multiplier : ℕ)
    (today date_last_harvested : ℤ) (acc : ℕ) :
    List HistoricPrice → Except LucraErr ℕ
  | [] => .ok acc
  | history :: rest =>
      match day_charge calc_penalty_rate_percentage loan penalty_multiplier
        today date_last_harvested history with
      | .error e => .error e
      | .ok c => sum_day_charges calc_penalty_rate_percentage loan
          penalty_multiplier today date_last_harvested (acc + c) rest

/-- `_accumulate_penalty_rate_charge` (`process_determine_penalty.rs:142`):
walk the whole ring accumulating per-day charges, then cap the total at the
loan's SOL collateral, and once more so that adding it to
`penalty_harvested` cannot exceed the SOL collateral. -/
def accumulate_penalty_rate_charge (calc_penalty_rate_percentage : RateFn)
    (price_history : PriceHistory) (loan : MataLoan)
    (penalty_multiplier : ℕ) (timestamp : ℤ) : Except LucraErr ℕ := do
  let today := day_start timestamp
  let date_last_harvested := day_start loan.last_day_penalty_was_checked
  let total ← sum_day_charges calc_penalty_rate_percentage loan
    penalty_multiplier today date_last_harvested 0 price_history.prices
  let penalty_rate := if total > loan.sol_collateral_amount
    then loan.sol_collateral_amount else total
  let penalty_rate := if penalty_rate + loan.penalty_harvested > loan.sol_collateral_amount
    then loan.sol_collateral_amount - loan.penalty_harvested else penalty_rate
  .ok penalty_rate

/-- Modelled from the spec: `MataLoan::add_penalty_to_harvest` is a `state`
method not among the provided sources; per the spec's accrual step 8, "Add
the capped sum to `penalty_to_harvest`". -/
def MataLoan.add_penalty_to_harvest (loan : MataLoan) (amount : ℕ) : MataLoan :=
  { loan with penalty_to_harvest := loan.penalty_to_harvest + amount }

/-- Modelled from the spec: `MataLoan::update_last_day_penalty_was_checked`
is a `state` method not among the provided sources; per the spec's accrual
step 8, "advance `last_day_penalty_was_checked` to now". -/
def MataLoan.update_last_day_penalty_was_checked (loan : MataLoan) (ts : ℤ) : MataLoan :=
  { loan with last_day_penalty_was_checked := ts }

/-- `process_determine_penalty` (`process_determine_penalty.rs:42`) at the
record level: the repaid and penalty-exhausted guards (lines 83-84), the
MATA market price and deviation multiplier, the accrual walk, and the two
loan updates.  Account plumbing and the caller-reward mint are outside the
model; an error result leaves every record unchanged. -/
def process_determine_penalty (calc_penalty_rate_percentage : RateFn)
    (loan : MataLoan) (sol_mata sol_usdc sol_usdt : OracleFeed)
    (price_history : PriceHistory) (now : ℤ) (current_slot : ℕ) :
    Except LucraErr MataLoan := do
  if loan.repaid = true then .error (.code .InvalidAccountInput)
  else if ¬ loan.penalty_harvested < loan.sol_collateral_amount then
    .error (.code .InvalidAmount)
  else do
    let mata_market_price ← get_mata_price sol_mata sol_usdc sol_usdt current_slot
    let penalty_multiplier ← calculate_penalty_multiplier mata_market_price
    let penalty_to_charge ← accumulate_penalty_rate_charge
      calc_penalty_rate_percentage price_history loan penalty_multiplier now
    .ok ((loan.add_penalty_to_harvest penalty_to_charge).update_last_day_penalty_was_checked now)

/-! ## Loan closure (`src/processor/process_close_out_mata_loan.rs`) -/

/-- Modelled from the spec: `MataLoan::calc_remaining_sol` is a `state`
method not among the provided sources; per the spec's Close step,
"`remaining_collateral = original_collateral − penalty_harvested_equivalent`". -/
def MataLoan.calc_remaining_sol (loan : MataLoan) : ℕ :=
  loan.sol_collateral_amount - loan.penalty_harvested

/-- Result of a successful `close_loan`: the terminated loan, the borrower's
MATA balance after the burn, the amount burned, and the SOL-equivalent
collateral released back to the borrower. -/
structure CloseResult where
  loan : MataLoan
  user_mata_amount : ℕ
  mata_burned : ℕ
  sol_returned : ℕ
  deriving DecidableEq

/-- `close_loan` (`process_close_out_mata_loan.rs:202-264`) at the record
level: the time-lock gate (line 207), the repaid and balance guards, the
burn of exactly `loan_amount`, the collateral release, and `loan.repaid()`
(a `state` setter, modelled as setting the terminal flag).  Account-identity
checks and the liquid-staking conversion of the released collateral are
outside the model. -/
def close_loan (loan : MataLoan) (epoch : ℤ) (user_mata_amount : ℕ)
    (now : ℤ) : Except LucraErr CloseResult :=
  if ¬ loan.loan_creation_date + epoch < now then .error (.code .Timelock)
  else if ¬ loan.repaid = false then .error (.code .InvalidAccountInput)
  else if ¬ user_mata_amount ≥ loan.loan_amount then .error (.code .InvalidAmount)
  else
    let sol_to_return := loan.calc_remaining_sol
    .ok { loan := { loan with repaid := true },
          user_mata_amount := user_mata_amount - loan.loan_amount,
          mata_burned := loan.loan_amount,
          sol_returned := sol_to_return }

/-! ## Loan origination (`src/processor/process_create_mata_loan.rs`) -/

/-- The slice of the global `SystemState` record read by the modelled
operations. -/
structure SystemState where
  loans_enabled : Bool
  peg_check_enabled : Bool
  peg_broken : Bool
  collateral_requirement : ℕ
  min_deposit : ℕ
  epoch : ℤ
  total_outstanding_mata : ℕ
  deriving DecidableEq

/-- Outcome of `create_loan`: the updated system state, the loan account's
final contents (`none` means the account was closed, never populated), the
amount of MATA minted to the borrower, and the lamports refunded to the
borrower from closing the presented account. -/
structure CreateOutcome where
  system_state : SystemState
  loan_account : Option MataLoan
  mata_minted : ℕ
  lamports_refunded : ℕ
  deriving DecidableEq

/-- `_create_loan` (`process_create_mata_loan.rs:357-466`) at the record
level: grow the outstanding-MATA counter (`add_outstanding_mata`, a `state`
method modelled from the spec's outstanding-debt counter as a plain
increment), require the presented account to be rent-exempt and not yet
initialized, require `lamports > min_deposit`, then mint `loan_amount` MATA
and populate the loan record with the fields of lines 448-461.  The
liquid-staking conversion and the vault transfer move the collateral and
are outside the record model. -/
def _create_loan (st : SystemState) (acct_lamports rent_exempt_minimum : ℕ)
    (acct_initialized : Bool) (lamports loan_amount
    staking_collateral_amount sol_market_price : ℕ) (loan_type : LoanType)
    (now : ℤ) : Except LucraErr CreateOutcome :=
  let st := { st with
    total_outstanding_mata := st.total_outstanding_mata + loan_amount }
  if ¬ acct_lamports ≥ rent_exempt_minimum then .error (.code .NotRentExempt)
  else if acct_initialized then .error (.code .DefaultError)
  else if ¬ lamports > st.min_deposit then .error (.code .InvalidAmount)
  else
    .ok { system_state := st,
          loan_account := some
            { repaid := false,
              loan_type := loan_type,
              collateral_rate := st.collateral_requirement,
              sol_collateral_amount := lamports,
              staking_collateral_amount := staking_collateral_amount,
              market_price := sol_market_price,
              loan_amount := loan_amount,
              penalty_harvested := 0,
              penalty_to_harvest := 0,
              loan_creation_date := now,
              last_day_penalty_was_checked := now },
          mata_minted := loan_amount,
          lamports_refunded := 0 }

/-- `create_loan` (`process_create_mata_loan.rs:316-353`): populate the loan
unless `peg_check_enabled && peg_broken`, in which case the presented
account is closed and its lamports are credited back to the user, and the
call still succeeds. -/
def create_loan (st : SystemState) (acct_lamports rent_exempt_minimum : ℕ)
    (acct_initialized : Bool) (lamports loan_amount
    staking_collateral_amount sol_market_price : ℕ) (loan_type : LoanType)
    (now : ℤ) : Except LucraErr CreateOutcome :=
  if ¬ (st.peg_check_enabled = true ∧ st.peg_broken = true) then
    _create_loan st acct_lamports rent_exempt_minimum acct_initialized
      lamports loan_amount staking_collateral_amount sol_market_price
      loan_type now
  else
    .ok { system_state := st,
          loan_account := none,
          mata_minted := 0,
          lamports_refunded := acct_lamports }

/-! ## Price history maintenance
(`src/processor/process_update_price_history.rs`) -/

/-- Modelled from the spec: `HistoricPrice::zero_out_prices` is a `state`
method not among the provided sources; per the spec's rollover rule it
zeroes "that window's snapshot entirely", i.e. both price fields. -/
def HistoricPrice.zero_out_prices (h : HistoricPrice) : HistoricPrice :=
  { h with sol_price := 0, lucra_price := 0 }

/-- Modelled from the spec: `PriceHistory::find_price_by_timestamp` /
`find_current_interval_price` are `state` methods not among the provided
sources; per the data-model invariant "at most one entry exists per
historical day" they locate the (first) ring entry whose date equals the
given day. -/
def find_price_by_timestamp (prices : List HistoricPrice) (d : ℤ) :
    Option HistoricPrice :=
  prices.find? (fun h => h.date = d)

/-- Zero out the prices of the (first) entry holding the given date,
leaving the rest of the ring untouched: the effect of
`find_current_interval_price` + `zero_out_prices`
(`process_update_price_history.rs:151-157`). -/
def zero_out_interval_price (prices : List HistoricPrice) (d : ℤ) :
    List HistoricPrice :=
  match prices with
  | [] => []
  | h :: rest =>
      if h.date = d then h.zero_out_prices :: rest
      else h :: zero_out_interval_price rest d

/-- The oldest date held by the ring (the ring is never empty on-chain; the
default for an empty list is irrelevant to the claims). -/
def oldest_date : List HistoricPrice → ℤ
  | [] => 0
  | [h] => h.date
  | h :: rest => min h.date (oldest_date rest)

/-- Overwrite the first slot holding the given date with the new entry. -/
def replace_first_with_date : List HistoricPrice → ℤ → HistoricPrice →
    List HistoricPrice
  | [], _, _ => []
  | h :: rest, d, entry =>
      if h.date = d then entry :: rest
      else h :: replace_first_with_date rest d entry

/-- Modelled from the spec: `PriceHistory::replace_oldest_price` is a
`state` method not among the provided sources; per the spec's rollover rule
it writes the new snapshot "into the oldest ring slot (true overwrite,
irrespective of whether that slot held a different date)".  The first slot
holding the minimal date is overwritten. -/
def replace_oldest_price (prices : List HistoricPrice)
    (entry : HistoricPrice) : List HistoricPrice :=
  replace_first_with_date prices (oldest_date prices) entry

/-- Modelled from the spec: `PriceHistory::interval_end` is a `state` method
not among the provided sources; the spec's ledger holds one snapshot per
day, so the open window is the day starting at `interval_start`. -/
def PriceHistory.interval_end (ph : PriceHistory) : ℤ :=
  ph.interval_start + UNIX_DAY

/-- Scaling of a fresh `Decimal` price to the stored fixed-point integer
with 6 decimals, as on `process_update_price_history.rs:163-176`:
`checked_mul(10^6).ok_or(math_err)?` then `.floor().to_u64().ok_or(math_err)?`. -/
def scale_price_6 (p : ℚ) : Except LucraErr ℕ := do
  let v ← ok_or_math_err (decMul p ((10 : ℚ) ^ 6))
  ok_or_math_err (floor_to_u64 v)

/-- In-window averaging of a fresh price into a stored fixed-point price,
as on `process_update_price_history.rs:95-115`:
`fresh.checked_mul(10^6)?.checked_add(stored)?.checked_div(2)?.floor().to_u64()?`,
every step `ok_or(math_err!())`. -/
def average_price_6 (stored : ℕ) (fresh : ℚ) : Except LucraErr ℕ := do
  let a ← ok_or_math_err (decMul fresh ((10 : ℚ) ^ 6))
  let b ← ok_or_math_err (decAdd a (stored : ℚ))
  let c ← ok_or_math_err (decDiv b 2)
  ok_or_math_err (floor_to_u64 c)

/-- Average the fresh samples into the (first) ring entry holding the given
date (the in-place mutation of the entry found by
`find_price_by_timestamp`, `process_update_price_history.rs:90-115`). -/
def average_into_interval_price (prices : List HistoricPrice) (d : ℤ)
    (sol_price lucra_price : ℚ) : Except LucraErr (List HistoricPrice) :=
  match prices with
  | [] => .ok []
  | h :: rest =>
      if h.date = d then do
        let sp ← average_price_6 h.sol_price sol_price
        let lp ← average_price_6 h.lucra_price lucra_price
        .ok ({ h with sol_price := sp, lucra_price := lp } :: rest)
      else do
        let rest' ← average_into_interval_price rest d sol_price lucra_price
        .ok (h :: rest')

/-- `process_update_price_history` (`process_update_price_history.rs:36`)
at the record level, taking the already-derived SOL and LUCRA prices: the
spacing gate (line 78), the three window cases (inside / past end / before
start), and the final counter increment and timestamp update.
`reset_counter`, `increment_counter` and `update_interval` are `state`
methods modelled from the spec ("reset the sample counter", "increment the
sample counter", "open a new window starting at the now-current day
boundary"). -/
def process_update_price_history (ph : PriceHistory)
    (sol_price lucra_price : ℚ) (now : ℤ) : Except LucraErr PriceHistory :=
  if ¬ ph.last_update_timestamp + UNIX_HOUR ≤ now then
    .error (.code .InsufficientTimePassed)
  else if now ≥ ph.interval_start ∧ now ≤ ph.interval_end then
    match find_price_by_timestamp ph.prices ph.interval_start with
    | some _ => do
        let prices' ← average_into_interval_price ph.prices ph.interval_start
          sol_price lucra_price
        .ok { ph with
              prices := prices',
              update_counter := ph.update_counter + 1,
              last_update_timestamp := now }
    | none => do
        let sol_u ← scale_price_6 sol_price
        let lucra_u ← scale_price_6 lucra_price
        let prices' := replace_oldest_price ph.prices
          ⟨ph.interval_start, sol_u, 6, lucra_u, 6⟩
        .ok { ph with
              prices := prices',
              update_counter := 0 + 1,
              last_update_timestamp := now }
  else if now > ph.interval_end then do
    let prices0 := if ph.update_counter < 12
      then zero_out_interval_price ph.prices ph.interval_start
      else ph.prices
    let new_interval_start := day_start now
    let sol_u ← scale_price_6 sol_price
    let lucra_u ← scale_price_6 lucra_price
    let prices' := replace_oldest_price prices0
      ⟨new_interval_start, sol_u, 6, lucra_u, 6⟩
    .ok { prices := prices',
          interval_start := new_interval_start,
          update_counter := 0 + 1,
          last_update_timestamp := now }
  else .error (.code .DefaultError)

/-! ## Theorems settling the claims -/

/-- Evaluation of the fixed-point scaling under the ranges that occur in
practice: for a non-negative price whose scaled value fits in a `u64`, the
stored integer is the floor of `price × 10^6`. -/
theorem scale_price_6_eq (p : ℚ) (h0 : 0 ≤ p) (h1 : p * 10 ^ 6 < 2 ^ 64) :
    scale_price_6 p = .ok ⌊p * 10 ^ 6⌋.toNat := by
  have hcap : p * 10 ^ 6 < decimalCap := by
    refine lt_trans h1 ?_
    norm_num [decimalCap]
  have hge : (0 : ℚ) ≤ p * 10 ^ 6 := by positivity
  have hfl0 : 0 ≤ ⌊p * 10 ^ 6⌋ := Int.floor_nonneg.mpr hge
  have hfl1 : ⌊p * 10 ^ 6⌋ < 2 ^ 64 := by
    have : (⌊p * 10 ^ 6⌋ : ℚ) < 2 ^ 64 := lt_of_le_of_lt (Int.floor_le _) h1
    exact_mod_cast this
  simp only [scale_price_6, decMul, floor_to_u64, ok_or_math_err]
  rw [if_pos ⟨by linarith [hge, abs_nonneg (p * 10 ^ 6)], hcap⟩]
  simp only [Except.bind, Bind.bind]
  rw [if_pos ⟨hfl0, hfl1⟩]

set_option maxRecDepth 4000 in
/-- C3: for every non-negative market price `p`, the deviation multiplier is
`1` when `p ≥ 1`, and `2 × (20 − ⌊p / 0.05⌋)` when `p < 1`; in particular
`multiplier(1.00) = 1`, `multiplier(0.95) = 2`, `multiplier(0.90) = 4`,
`multiplier(0.60) = 16`. -/
theorem C3_penalty_multiplier (p : ℚ) (hp : 0 ≤ p) :
    (1 ≤ p → calculate_penalty_multiplier p = .ok 1) ∧
    (p < 1 →
      calculate_penalty_multiplier p = .ok ((20 - (⌊p / (5 / 100)⌋).toNat) * 2) ∧
      (((20 - (⌊p / (5 / 100)⌋).toNat) * 2 : ℕ) : ℤ) = 2 * (20 - ⌊p / (5 / 100)⌋)) ∧
    calculate_penalty_multiplier 1 = .ok 1 ∧
    calculate_penalty_multiplier (95 / 100) = .ok 2 ∧
    calculate_penalty_multiplier (90 / 100) = .ok 4 ∧
    calculate_penalty_multiplier (60 / 100) = .ok 16 := by
  have hcap : (20 : ℚ) < decimalCap := by norm_num [decimalCap]
  have hcap0 : (0 : ℚ) < decimalCap := by norm_num [decimalCap]
  refine ⟨fun h1 => by simp [calculate_penalty_multiplier, h1], fun h1 => ?_,
    by norm_num [calculate_penalty_multiplier],
    by norm_num [calculate_penalty_multiplier, decDiv, floor_to_u64,
      decimalCap, Int.floor_eq_iff] <;> decide,
    by norm_num [calculate_penalty_multiplier, decDiv, floor_to_u64,
      decimalCap, Int.floor_eq_iff] <;> decide,
    by norm_num [calculate_penalty_multiplier, decDiv, floor_to_u64,
      decimalCap, Int.floor_eq_iff] <;> decide⟩
  have hq : p / (5 / 100) = 20 * p := by ring
  have hq0 : (0 : ℚ) ≤ p / (5 / 100) := by rw [hq]; positivity
  have hq20 : p / (5 / 100) < 20 := by rw [hq]; linarith
  have hf0 : 0 ≤ ⌊p / (5 / 100)⌋ := Int.floor_nonneg.mpr hq0
  have hf20 : ⌊p / (5 / 100)⌋ < 20 := by
    have h' : (⌊p / (5 / 100)⌋ : ℚ) < 20 := lt_of_le_of_lt (Int.floor_le _) hq20
    exact_mod_cast h'
  have e1 : decDiv p (5 / 100) = some (p / (5 / 100)) := by
    simp only [decDiv]
    rw [if_neg (by norm_num), if_pos ⟨by linarith, by linarith⟩]
  have e2 : floor_to_u64 (p / (5 / 100)) = some (⌊p / (5 / 100)⌋.toNat) := by
    simp only [floor_to_u64]
    rw [if_pos ⟨hf0, by omega⟩]
  constructor
  · simp [calculate_penalty_multiplier, not_le.mpr h1, e1, e2]
  · omega

/-- C3 witness: the theorem applied at the concrete price `0.60`. -/
theorem C3_penalty_multiplier_witness :
    calculate_penalty_multiplier (60 / 100) = .ok 16 :=
  (C3_penalty_multiplier (60 / 100) (by norm_num)).2.2.2.2.2

/-- C5 counterexample: a valid, fresh feed with exponent 29 makes the price
derivation panic (`Decimal::TEN.powi` overflow) instead of returning
`mantissa / 10^29` as the claim states. -/
theorem C5_oracle_counterexample :
    calc_oracle_price 1 29 5 1 5 = .error .panic ∧
    calc_oracle_price 1 29 5 1 5 ≠ .ok ((1 : ℚ) / 10 ^ 29) := by
  have h1 : calc_oracle_price 1 29 5 1 5 = .error .panic := by
    norm_num [calc_oracle_price, get_price, ORACLE_PRICE_MAX_SLOTS]
  exact ⟨h1, by rw [h1]; simp⟩

/-- C5 (amended): price derivation fails `OracleStatusNotValid` whenever the
status is not 1, fails `OracleStale` whenever `checkpoint + 25 < slot`, and
otherwise returns exactly `mantissa / 10^exponent` provided the exponent is
at most 28 (an exponent of 29 or more panics in the decimal power); the
concrete feed of the claim derives 28.05. -/
theorem C5_oracle_gating (price expo valid_slot status current_slot : ℕ) :
    (status ≠ 1 →
      calc_oracle_price price expo valid_slot status current_slot =
        .error (.code .OracleStatusNotValid)) ∧
    (status = 1 → valid_slot + 25 < current_slot →
      calc_oracle_price price expo valid_slot status current_slot =
        .error (.code .OracleStale)) ∧
    (status = 1 → ¬ valid_slot + 25 < current_slot → expo ≤ 28 →
      calc_oracle_price price expo valid_slot status current_slot =
        .ok ((price : ℚ) / 10 ^ expo)) ∧
    (status = 1 → ¬ valid_slot + 25 < current_slot → 29 ≤ expo →
      calc_oracle_price price expo valid_slot status current_slot =
        .error .panic) ∧
    calc_oracle_price 28050000 6 1357892 1 1357892 = .ok (2805 / 100) := by
  refine ⟨fun h => by simp [calc_oracle_price, h], fun h hs => ?_,
    fun h hs he => ?_, fun h hs he => ?_, by
      norm_num [calc_oracle_price, get_price, ORACLE_PRICE_MAX_SLOTS]⟩
  · simp [calc_oracle_price, h, ORACLE_PRICE_MAX_SLOTS, hs]
  · simp [calc_oracle_price, h, ORACLE_PRICE_MAX_SLOTS, hs, get_price, he]
  · simp [calc_oracle_price, h, ORACLE_PRICE_MAX_SLOTS, hs, get_price]
    omega

/-- C5 witness: the theorem applied at the claim's concrete feed. -/
theorem C5_oracle_gating_witness :
    calc_oracle_price 28050000 6 1357892 1 1357892 =
      .ok ((28050000 : ℚ) / 10 ^ 6) :=
  (C5_oracle_gating 28050000 6 1357892 1 1357892).2.2.1 rfl (by norm_num)
    (by norm_num)

/-- The one-day charge prescribed by the spec's accrual step 6, stated from
the spec's words for comparison with the source's computation: simple
interest `principal × rate × 1/365` over exactly one day of a 365-day
year, floored, then scaled by the deviation multiplier. -/
def spec_one_day_charge (rate principal multiplier : ℕ) : ℕ :=
  (⌊(principal : ℚ) * ((rate : ℚ) / 100) * (1 / 365)⌋).toNat * multiplier

/-- C2 (code bug): the source's `one_day` is `1/356` of a year
(`process_determine_penalty.rs:156`), not the `1/365` that simple interest
over one day requires, so the per-day charge disagrees with the claim's
formula at every nonzero charge; at the annual rate `36.00` on a principal
of `10^10` lamports with multiplier 1 the source charges `1011235955`
per day while the claim's formula yields `986301369`. -/
theorem C2_one_day_charge_code_vs_spec :
    one_day = 1 / 356 ∧
    calculate_annual_interest_rate 3600 (10 ^ 10) one_day = .ok 1011235955 ∧
    spec_one_day_charge 3600 (10 ^ 10) 1 = 986301369 ∧
    1011235955 * 1 ≠ spec_one_day_charge 3600 (10 ^ 10) 1 := by
  refine ⟨rfl, ?_, ?_, ?_⟩
  · norm_num [calculate_annual_interest_rate, floor_to_u64, one_day,
      Int.floor_eq_iff] <;> decide
  · norm_num [spec_one_day_charge, Int.floor_eq_iff] <;> decide
  · norm_num [spec_one_day_charge, Int.floor_eq_iff] <;> decide

/-- C9 counterexample: the final `to_u64().unwrap()` of
`calculate_annual_interest_rate` panics (rather than surfacing `MathError`)
as soon as the one-day charge reaches `2^64`: here at rate `356.01%` on the
maximal `u64` principal. -/
theorem C9_unwrap_counterexample :
    calculate_annual_interest_rate 35601 18446744073709551615 one_day =
      .error .panic := by
  simp only [calculate_annual_interest_rate, floor_to_u64]
  have harg : one_day * (((35601 : ℕ) : ℚ) / 100) *
      ((18446744073709551615 : ℕ) : ℚ) =
      35601 * 18446744073709551615 / 35600 := by
    push_cast [one_day]
    ring
  rw [harg]
  have hge : (2 ^ 64 : ℤ) ≤ ⌊(35601 : ℚ) * 18446744073709551615 / 35600⌋ := by
    rw [Int.le_floor]
    rw [le_div_iff (by norm_num : (0 : ℚ) < 35600)]
    push_cast
    norm_num
  rw [if_neg (by omega)]

/-- C9 (amended): `calculate_annual_interest_rate` never surfaces
`MathError`: whenever the floored one-day value fits in a `u64` it is
returned, and otherwise the function panics (the `to_u64().unwrap()` of
`math.rs:28-30`) instead of returning an error. -/
theorem C9_interest_rate_outcomes (rate starting_amount : ℕ) :
    (⌊one_day * ((rate : ℚ) / 100) * (starting_amount : ℚ)⌋ < 2 ^ 64 →
      calculate_annual_interest_rate rate starting_amount one_day =
        .ok ⌊one_day * ((rate : ℚ) / 100) * (starting_amount : ℚ)⌋.toNat) ∧
    (2 ^ 64 ≤ ⌊one_day * ((rate : ℚ) / 100) * (starting_amount : ℚ)⌋ →
      calculate_annual_interest_rate rate starting_amount one_day =
        .error .panic) ∧
    calculate_annual_interest_rate rate starting_amount one_day ≠
      .error (.code .MathError) := by
  have h0 : (0 : ℚ) ≤ one_day * ((rate : ℚ) / 100) * (starting_amount : ℚ) := by
    have hone : (0 : ℚ) ≤ one_day := by norm_num [one_day]
    have hr : (0 : ℚ) ≤ (rate : ℚ) / 100 := by positivity
    have hs : (0 : ℚ) ≤ (starting_amount : ℚ) := by positivity
    exact mul_nonneg (mul_nonneg hone hr) hs
  have hf0 : 0 ≤ ⌊one_day * ((rate : ℚ) / 100) * (starting_amount : ℚ)⌋ :=
    Int.floor_nonneg.mpr h0
  refine ⟨fun h => ?_, fun h => ?_, ?_⟩
  · simp only [calculate_annual_interest_rate, floor_to_u64]
    rw [if_pos ⟨hf0, h⟩]
  · simp only [calculate_annual_interest_rate, floor_to_u64]
    rw [if_neg (by omega)]
  · simp only [calculate_annual_interest_rate, floor_to_u64]
    by_cases hc : 0 ≤ ⌊one_day * ((rate : ℚ) / 100) * (starting_amount : ℚ)⌋ ∧
        ⌊one_day * ((rate : ℚ) / 100) * (starting_amount : ℚ)⌋ < 2 ^ 64
    · rw [if_pos hc]
      simp
    · rw [if_neg hc]
      simp

/-- C9 witness: the theorem applied at rate `36.00` on `10^10` lamports,
the in-range case, evaluated. -/
theorem C9_interest_rate_outcomes_witness :
    calculate_annual_interest_rate 3600 (10 ^ 10) one_day = .ok 1011235955 := by
  have h := (C9_interest_rate_outcomes 3600 (10 ^ 10)).1
  rw [h (by norm_num [one_day, Int.floor_eq_iff])]
  norm_num [one_day, Int.floor_eq_iff]
  decide

/-- C10: `DeterminePenalty` is rejected before any computation whenever the
loan is already repaid (`InvalidAccountInput`) or `penalty_harvested` is
not strictly below `sol_collateral_amount` (`InvalidAmount`); an error
leaves the loan record unchanged (the transaction aborts).  In particular a
loan whose harvested penalty equals its SOL collateral can never again have
penalty determined. -/
theorem C10_determine_penalty_guards (calc_penalty_rate_percentage : RateFn)
    (loan : MataLoan) (sol_mata sol_usdc sol_usdt : OracleFeed)
    (price_history : PriceHistory) (now : ℤ) (current_slot : ℕ) :
    (loan.repaid = true →
      process_determine_penalty calc_penalty_rate_percentage loan sol_mata
        sol_usdc sol_usdt price_history now current_slot =
        .error (.code .InvalidAccountInput)) ∧
    (loan.repaid = false →
      loan.sol_collateral_amount ≤ loan.penalty_harvested →
      process_determine_penalty calc_penalty_rate_percentage loan sol_mata
        sol_usdc sol_usdt price_history now current_slot =
        .error (.code .InvalidAmount)) := by
  constructor
  · intro h
    simp [process_determine_penalty, h]
  · intro h h2
    simp [process_determine_penalty, h, not_lt.mpr h2]

/-- A minimal loan record used for concrete instantiations. -/
def sample_loan : MataLoan :=
  { repaid := true, loan_type := .Default, collateral_rate := 300,
    sol_collateral_amount := 10000000000, staking_collateral_amount := 0,
    market_price := 20000000, loan_amount := 133333333,
    penalty_harvested := 0, penalty_to_harvest := 0,
    loan_creation_date := 0, last_day_penalty_was_checked := 0 }

/-- A placeholder oracle feed for instantiations that never read it. -/
def sample_feed : OracleFeed := ⟨0, 0, 0, 0⟩

/-- An empty price-history record for instantiations that never read it. -/
def sample_history : PriceHistory :=
  { prices := [], interval_start := 0, update_counter := 0,
    last_update_timestamp := 0 }

/-- C10 witness: the theorem applied to a repaid loan. -/
theorem C10_determine_penalty_guards_witness :
    process_determine_penalty flat_rate_schedule sample_loan sample_feed
      sample_feed sample_feed sample_history 0 0 =
      .error (.code .InvalidAccountInput) :=
  (C10_determine_penalty_guards flat_rate_schedule sample_loan sample_feed
    sample_feed sample_feed sample_history 0 0).1 rfl

/-- C4: in the accrual walk, an entry with a zero SOL or LUCRA price
contributes zero charge; an entry dated before the loan's creation
contributes zero; an entry dated today (the current timestamp truncated to
the start of its day) contributes zero; and an entry not strictly after the
loan's last-checked day contributes zero. -/
theorem C4_accrual_skip_rules (calc_penalty_rate_percentage : RateFn)
    (loan : MataLoan) (penalty_multiplier : ℕ) (timestamp : ℤ)
    (history : HistoricPrice) :
    (history.sol_price = 0 ∨ history.lucra_price = 0 →
      day_charge calc_penalty_rate_percentage loan penalty_multiplier
        (day_start timestamp) (day_start loan.last_day_penalty_was_checked)
        history = .ok 0) ∧
    (history.date < loan.loan_creation_date →
      day_charge calc_penalty_rate_percentage loan penalty_multiplier
        (day_start timestamp) (day_start loan.last_day_penalty_was_checked)
        history = .ok 0) ∧
    (history.date = day_start timestamp →
      day_charge calc_penalty_rate_percentage loan penalty_multiplier
        (day_start timestamp) (day_start loan.last_day_penalty_was_checked)
        history = .ok 0) ∧
    (history.date ≤ day_start loan.last_day_penalty_was_checked →
      day_charge calc_penalty_rate_percentage loan penalty_multiplier
        (day_start timestamp) (day_start loan.last_day_penalty_was_checked)
        history = .ok 0) := by
  refine ⟨fun hz => ?_, fun hlt => ?_, fun he => ?_, fun hle => ?_⟩
  · simp only [day_charge]
    rw [if_pos hz]
  · simp only [day_charge]
    split_ifs with h1 h2 h3 h4 <;> first | rfl | exact absurd hlt h2
  · simp only [day_charge]
    split_ifs with h1 h2 h3 h4 <;> first | rfl | exact absurd he h3
  · simp only [day_charge]
    split_ifs with h1 h2 h3 h4 <;> first | rfl | exact absurd h4 (not_lt.mpr hle)

/-- C4 witness: the theorem applied to an entry with a zero SOL price. -/
theorem C4_accrual_skip_rules_witness :
    day_charge flat_rate_schedule sample_loan 1 (day_start 7) (day_start 0)
      ⟨3, 0, 6, 100000, 6⟩ = .ok 0 := by
  have h := (C4_accrual_skip_rules flat_rate_schedule sample_loan 1 7
    ⟨3, 0, 6, 100000, 6⟩).1 (Or.inl rfl)
  simpa [sample_loan] using h

/-- The loan used for the close-out boundary counterexample: created at
time 0, not repaid, owing 5 units. -/
def c6_loan : MataLoan :=
  { repaid := false, loan_type := .Default, collateral_rate := 300,
    sol_collateral_amount := 10000000000, staking_collateral_amount := 0,
    market_price := 20000000, loan_amount := 5,
    penalty_harvested := 0, penalty_to_harvest := 0,
    loan_creation_date := 0, last_day_penalty_was_checked := 0 }

/-- C6 counterexample: with epoch 100, closing at time 100 — elapsed time
exactly equal to the epoch, an unrepaid loan, and a sufficient balance —
fails `Timelock`, where the claim says the close succeeds and burns; the
time-lock gate (`process_close_out_mata_loan.rs:207`) requires
`creation + epoch < now` strictly. -/
theorem C6_close_boundary_counterexample :
    (100 : ℤ) - c6_loan.loan_creation_date ≥ 100 ∧
    c6_loan.repaid = false ∧
    (10 : ℕ) ≥ c6_loan.loan_amount ∧
    close_loan c6_loan 100 10 100 = .error (.code .Timelock) := by
  refine ⟨by norm_num [c6_loan], rfl, by norm_num [c6_loan], ?_⟩
  norm_num [close_loan, c6_loan]

/-- C6 (amended): Close fails `Timelock` exactly when the elapsed time
since origination is at most the epoch (not: strictly less than); when the
elapsed time strictly exceeds the epoch, the loan is unrepaid, and the
borrower's balance covers `loan_amount`, Close burns exactly `loan_amount`,
returns the remaining collateral and sets `repaid`. -/
theorem C6_close_timelock (loan : MataLoan) (epoch : ℤ)
    (user_mata_amount : ℕ) (now : ℤ) :
    (close_loan loan epoch user_mata_amount now = .error (.code .Timelock) ↔
      now - loan.loan_creation_date ≤ epoch) ∧
    (epoch < now - loan.loan_creation_date → loan.repaid = false →
      loan.loan_amount ≤ user_mata_amount →
      close_loan loan epoch user_mata_amount now =
        .ok { loan := { loan with repaid := true },
              user_mata_amount := user_mata_amount - loan.loan_amount,
              mata_burned := loan.loan_amount,
              sol_returned :=
                loan.sol_collateral_amount - loan.penalty_harvested }) := by
  constructor
  · constructor
    · intro h
      by_contra hc
      have hlt : loan.loan_creation_date + epoch < now := by omega
      simp only [close_loan] at h
      rw [if_neg (not_not_intro hlt)] at h
      split_ifs at h <;> simp_all
    · intro h
      have : ¬ loan.loan_creation_date + epoch < now := by omega
      simp [close_loan, this]
  · intro ht hr hb
    have h1 : loan.loan_creation_date + epoch < now := by omega
    simp [close_loan, h1, hr, hb, MataLoan.calc_remaining_sol]

/-- C6 witness: the amended theorem applied one second past the epoch. -/
theorem C6_close_timelock_witness :
    close_loan c6_loan 100 10 101 =
      .ok { loan := { c6_loan with repaid := true },
            user_mata_amount := 5, mata_burned := 5,
            sol_returned := 10000000000 } := by
  have h := (C6_close_timelock c6_loan 100 10 101).2 (by norm_num [c6_loan])
    rfl (by norm_num [c6_loan])
  rw [h]
  norm_num [c6_loan]

/-- The system state for the peg-gate counterexample: the peg is flagged
broken but peg checking is disabled. -/
def c8_state : SystemState :=
  { loans_enabled := true, peg_check_enabled := false, peg_broken := true,
    collateral_requirement := 300, min_deposit := 0, epoch := 0,
    total_outstanding_mata := 0 }

/-- The populated outcome produced in the peg-gate counterexample. -/
def c8_outcome : CreateOutcome :=
  { system_state := { c8_state with total_outstanding_mata := 3 },
    loan_account := some
      { repaid := false, loan_type := .Default, collateral_rate := 300,
        sol_collateral_amount := 5, staking_collateral_amount := 0,
        market_price := 20, loan_amount := 3,
        penalty_harvested := 0, penalty_to_harvest := 0,
        loan_creation_date := 0, last_day_penalty_was_checked := 0 },
    mata_minted := 3,
    lamports_refunded := 0 }

/-- C8 counterexample: with `peg_broken = true` but `peg_check_enabled =
false`, `create_loan` populates the loan and mints — the refund-and-close
branch (`process_create_mata_loan.rs:317`) requires both flags, while the
claim quantifies over every call made while `peg_broken` is true. -/
theorem C8_peg_gate_counterexample :
    c8_state.peg_broken = true ∧
    create_loan c8_state 100 1 false 5 3 0 20 .Default 0 = .ok c8_outcome ∧
    c8_outcome.loan_account ≠ none ∧
    c8_outcome.mata_minted ≠ 0 ∧
    c8_outcome.lamports_refunded = 0 := by
  refine ⟨rfl, ?_, by simp [c8_outcome], by simp [c8_outcome], rfl⟩
  norm_num [create_loan, _create_loan, c8_state, c8_outcome]

/-- C8 (amended): whenever peg checking is enabled and the peg is flagged
broken, an origination call leaves the system state untouched, never
populates the presented account, mints nothing, refunds the account's
lamports to the user, and succeeds. -/
theorem C8_peg_broken_refund (st : SystemState)
    (acct_lamports rent_exempt_minimum : ℕ) (acct_initialized : Bool)
    (lamports loan_amount staking_collateral_amount sol_market_price : ℕ)
    (loan_type : LoanType) (now : ℤ) :
    st.peg_check_enabled = true → st.peg_broken = true →
    create_loan st acct_lamports rent_exempt_minimum acct_initialized
      lamports loan_amount staking_collateral_amount sol_market_price
      loan_type now =
      .ok { system_state := st, loan_account := none, mata_minted := 0,
            lamports_refunded := acct_lamports } := by
  intro h1 h2
  simp [create_loan, h1, h2]

/-- C8 witness: the amended theorem applied to a state with both flags
set. -/
theorem C8_peg_broken_refund_witness :
    create_loan { c8_state with peg_check_enabled := true } 100 1 false 5 3
      0 20 .Default 0 =
      .ok { system_state := { c8_state with peg_check_enabled := true },
            loan_account := none, mata_minted := 0,
            lamports_refunded := 100 } :=
  C8_peg_broken_refund { c8_state with peg_check_enabled := true } 100 1
    false 5 3 0 20 .Default 0 rfl rfl

/-- The loan for the cap-violation input: its pending `penalty_to_harvest`
already equals the whole SOL collateral, nothing harvested yet. -/
def c1_loan : MataLoan :=
  { repaid := false, loan_type := .Default, collateral_rate := 300,
    sol_collateral_amount := 10000000000, staking_collateral_amount := 0,
    market_price := 20000000, loan_amount := 133333333,
    penalty_harvested := 0, penalty_to_harvest := 10000000000,
    loan_creation_date := 0, last_day_penalty_was_checked := 0 }

/-- A fresh, valid feed quoting 20 with 6 decimals (SOL/USD and SOL/MATA),
so the derived MATA price is exactly 1.00 and the multiplier is 1. -/
def c1_feed : OracleFeed := ⟨20000000, 6, 0, 1⟩

/-- One deeply undercollateralized eligible day (day 2) in the ledger. -/
def c1_history : PriceHistory :=
  { prices := [⟨172800, 50000, 6, 50000, 6⟩],
    interval_start := 0, update_counter := 0, last_update_timestamp := 0 }

/-- The loan state after the cap-violating call. -/
def c1_loan_after : MataLoan :=
  { c1_loan with
    penalty_to_harvest := 11011235955
    last_day_penalty_was_checked := 259200 }

set_option maxRecDepth 8000 in
/-- C1 (code bug): one `DeterminePenalty` call on a loan whose
`penalty_to_harvest` already equals its SOL collateral adds a fresh charge
on top — the caps of `process_determine_penalty.rs:185-192` consider only
`penalty_harvested` — so afterwards
`penalty_to_harvest + penalty_harvested > sol_collateral_amount`,
violating the claimed invariant. -/
theorem C1_cap_violation :
    process_determine_penalty flat_rate_schedule c1_loan c1_feed c1_feed
      c1_feed c1_history 259200 0 = .ok c1_loan_after ∧
    c1_loan_after.sol_collateral_amount <
      c1_loan_after.penalty_to_harvest + c1_loan_after.penalty_harvested := by
  constructor
  · norm_num [process_determine_penalty, c1_loan, c1_feed, c1_history,
      c1_loan_after, get_mata_price, get_sol_price, get_oracle_price,
      calc_oracle_price, get_price, ORACLE_PRICE_MAX_SLOTS,
      calculate_penalty_multiplier, accumulate_penalty_rate_charge,
      day_charge, day_start, flat_rate_schedule, calculate_collateral_value,
      calculate_annual_interest_rate, unwrap_or_panic, ok_or_math_err,
      decMul, decDiv, decAdd, floor_to_u64, one_day, LAMPORTS_PER_SOL,
      LAMPORTS_PER_LUCRA, UNIX_DAY, decimalCap, sum_day_charges,
      Except.instMonad, Except.bind, Except.pure, Bind.bind, Pure.pure,
      MataLoan.add_penalty_to_harvest,
      MataLoan.update_last_day_penalty_was_checked, Int.toNat_ofNat]
    decide
  · norm_num [c1_loan_after, c1_loan]

/-- C7: when a sample arrives strictly past the current window's end, the
just-closed window's snapshot is zeroed entirely if it saw fewer than 12
samples, the counter restarts (ending at 1 for the new sample), a new
window opens at the day boundary of the current time, and the fresh sample
— scaled to 6-decimal fixed point and floored — overwrites the oldest ring
slot regardless of the date that slot held. -/
theorem C7_rollover (ph : PriceHistory) (sol_price lucra_price : ℚ)
    (now : ℤ)
    (hgate : ph.last_update_timestamp + UNIX_HOUR ≤ now)
    (hroll : ph.interval_end < now)
    (hs0 : 0 ≤ sol_price) (hs1 : sol_price * 10 ^ 6 < 2 ^ 64)
    (hl0 : 0 ≤ lucra_price) (hl1 : lucra_price * 10 ^ 6 < 2 ^ 64) :
    process_update_price_history ph sol_price lucra_price now =
      .ok { prices := replace_oldest_price
              (if ph.update_counter < 12
               then zero_out_interval_price ph.prices ph.interval_start
               else ph.prices)
              ⟨day_start now, ⌊sol_price * 10 ^ 6⌋.toNat, 6,
               ⌊lucra_price * 10 ^ 6⌋.toNat, 6⟩,
            interval_start := day_start now,
            update_counter := 1,
            last_update_timestamp := now } := by
  have hin : ¬ (now ≥ ph.interval_start ∧ now ≤ ph.interval_end) := by
    intro h
    exact absurd h.2 (not_le.mpr hroll)
  simp only [process_update_price_history]
  rw [if_neg (not_not_intro hgate), if_neg hin, if_pos hroll]
  rw [scale_price_6_eq sol_price hs0 hs1, scale_price_6_eq lucra_price hl0 hl1]
  simp [Except.instMonad, Except.bind, Except.pure, Bind.bind, Pure.pure]

/-- A ledger about to roll over: the open window (day starting 86400) has
seen only 3 samples; the ring also holds an older day-0 slot. -/
def c7_history : PriceHistory :=
  { prices := [⟨0, 7, 6, 8, 6⟩, ⟨86400, 9, 6, 11, 6⟩],
    interval_start := 86400, update_counter := 3,
    last_update_timestamp := 172800 }

/-- C7 witness: the theorem applied to `c7_history` at a time past the
window's end: the under-sampled day-86400 snapshot is zeroed, the day-0
slot (the oldest) is overwritten by the new sample, the window moves to
259200 and the counter restarts at 1. -/
theorem C7_rollover_witness :
    process_update_price_history c7_history (3 / 2) 2 259205 =
      .ok { prices := [⟨259200, 1500000, 6, 2000000, 6⟩, ⟨86400, 0, 6, 0, 6⟩],
            interval_start := 259200, update_counter := 1,
            last_update_timestamp := 259205 } := by
  have h := C7_rollover c7_history (3 / 2) 2 259205
    (by norm_num [c7_history, UNIX_HOUR])
    (by norm_num [c7_history, PriceHistory.interval_end, UNIX_DAY])
    (by norm_num) (by norm_num) (by norm_num) (by norm_num)
  rw [h]
  have hday : day_start 259205 = 259200 := by decide
  have hf1 : (⌊(3 / 2 : ℚ) * 10 ^ 6⌋ : ℤ) = 1500000 := by norm_num
  have hf2 : (⌊(2 : ℚ) * 10 ^ 6⌋ : ℤ) = 2000000 := by norm_num
  norm_num [c7_history, hday, hf1, hf2, replace_oldest_price, oldest_date,
    zero_out_interval_price, HistoricPrice.zero_out_prices,
    replace_first_with_date]
  decide

/-! ## Validation against the repository's unit tests

`test_accumulate_penalty_rate_max_bad`
(`process_determine_penalty.rs:291-357`) walks four deeply
undercollateralized days and expects `4_044_943_820`; the model reproduces
it with the flat bottom-band schedule, confirming both the `1/356` day
fraction and the 36.00% bottom band that the expected constants encode. -/

/-- One history day of the repository's `max_bad` test: SOL at 5 dollars,
LUCRA at 3 cents. -/
def repo_bad_entry (d : ℤ) : HistoricPrice := ⟨d, 5000000, 6, 30000, 6⟩

/-- The loan of the repository's `max_bad` test. -/
def repo_bad_loan : MataLoan :=
  { repaid := false, loan_type := .Default, collateral_rate := 300,
    sol_collateral_amount := 10000000000,
    staking_collateral_amount := 200000000000,
    market_price := 50000000000, loan_amount := 233333333,
    penalty_harvested := 0, penalty_to_harvest := 0,
    loan_creation_date := 0, last_day_penalty_was_checked := 0 }

/-- The ring of the repository's `max_bad` test (four days, 1 to 4). -/
def repo_bad_history : PriceHistory :=
  { prices := [repo_bad_entry 1, repo_bad_entry 2, repo_bad_entry 3,
      repo_bad_entry 4],
    interval_start := 0, update_counter := 0, last_update_timestamp := 0 }

/-- The collateral value of one `max_bad` day: 50 dollars of SOL plus 6
dollars of LUCRA. -/
theorem repo_bad_collateral :
    calculate_collateral_value 5000000 6 10000000000 30000 6 200000000000 =
      .ok 56 := by
  norm_num [calculate_collateral_value, get_price, ok_or_math_err, decMul,
    decDiv, decAdd, decimalCap, LAMPORTS_PER_SOL, LAMPORTS_PER_LUCRA,
    Except.instMonad, Except.bind, Except.pure, Bind.bind, Pure.pure]

/-- The one-day conversion of the 36.00% bottom band on the test
principal. -/
theorem repo_bad_rate :
    calculate_annual_interest_rate 3600 10000000000 one_day =
      .ok 1011235955 := by
  norm_num [calculate_annual_interest_rate, floor_to_u64, one_day,
    Int.floor_eq_iff]
  decide

/-- Each eligible `max_bad` day charges `⌊10^10 × 36.00 / 356⌋ =
1_011_235_955`. -/
theorem repo_bad_day_charge (d : ℤ) (hd : 0 < d) :
    day_charge flat_rate_schedule repo_bad_loan 1 0 0 (repo_bad_entry d) =
      .ok 1011235955 := by
  have hne : ¬ d = (0 : ℤ) := by omega
  have hnl : ¬ d < (0 : ℤ) := by omega
  simp only [day_charge, repo_bad_entry, repo_bad_loan]
  rw [if_neg (by norm_num), if_neg hnl, if_neg hne, if_pos hd]
  rw [show (10000000000 : ℕ) = repo_bad_loan.sol_collateral_amount from rfl]
  simp only [repo_bad_loan, repo_bad_collateral, unwrap_or_panic,
    flat_rate_schedule, repo_bad_rate, Except.instMonad, Except.bind,
    Except.pure, Bind.bind, Pure.pure]

/-- The model reproduces the repository's expected total `4_044_943_820`
for the `max_bad` scenario. -/
theorem accumulate_matches_repo_max_bad :
    accumulate_penalty_rate_charge flat_rate_schedule repo_bad_history
      repo_bad_loan 1 0 = .ok 4044943820 := by
  have hz : day_start 0 = 0 := by decide
  have hl : repo_bad_loan.last_day_penalty_was_checked = 0 := rfl
  have h1 := repo_bad_day_charge 1 (by norm_num)
  have h2 := repo_bad_day_charge 2 (by norm_num)
  have h3 := repo_bad_day_charge 3 (by norm_num)
  have h4 := repo_bad_day_charge 4 (by norm_num)
  simp only [accumulate_penalty_rate_charge, repo_bad_history, hl,
    hz, sum_day_charges, h1, h2, h3, h4, Except.instMonad, Except.bind,
    Except.pure, Bind.bind, Pure.pure]
  norm_num [repo_bad_loan]
